import Mathlib

/-
Verification of src/code_generation/ioctls.c: a straight-line C program whose
main body is seven printf calls, each printing the name and decimal value of a
KVM ioctl request constant taken from the platform header linux/kvm.h.

The embedding has three layers:
  1. the numeric values of the seven constants, modelled from the external
     Linux uapi headers (asm-generic/ioctl.h encoding, x86-64 struct sizes);
  2. a small state-passing semantics for the program body: a list of printf
     statements executed against a process state (stdout, stderr, files),
     parameterised by an oracle saying which stdout writes succeed;
  3. a C-type layer recording, for each call, the conversion specifier of the
     format string and the C type of the argument expression.
-/

namespace Ioctls

/-- The ioctl request encoding of the external header asm-generic/ioctl.h:
a request number packs a direction (2 bits at bit 30), a payload size
(14 bits at bit 16), a type byte (at bit 8) and a command number (at bit 0),
combined with shifts and bitwise or exactly as the C macro does. -/
def ioc (dir typ nr size : Nat) : Nat :=
  (dir <<< 30) ||| (typ <<< 8) ||| (nr <<< 0) ||| (size <<< 16)

/-- Direction value for an ioctl carrying no payload (0U in the header). -/
def iocNone : Nat := 0

/-- Direction value for a write ioctl (1U in the header). -/
def iocWrite : Nat := 1

/-- Direction value for a read ioctl (2U in the header). -/
def iocRead : Nat := 2

/-- The KVM ioctl type byte, 0xAE in linux/kvm.h. -/
def kvmMagic : Nat := 0xAE

/-- Byte size of struct kvm_userspace_memory_region on x86-64:
two u32 fields and three u64 fields. -/
def sizeofUserspaceMemoryRegion : Nat := 32

/-- Byte size of struct kvm_sregs on x86-64: eight 24-byte segment
descriptors, two 16-byte descriptor tables, seven u64 control registers and a
32-byte interrupt bitmap. -/
def sizeofSregs : Nat := 312

/-- KVM_GET_API_VERSION, declared in linux/kvm.h as the no-payload ioctl
number 0x00 of the KVM type byte. -/
def KVM_GET_API_VERSION : Nat := ioc iocNone kvmMagic 0x00 0

/-- KVM_CREATE_VM, the no-payload ioctl number 0x01. -/
def KVM_CREATE_VM : Nat := ioc iocNone kvmMagic 0x01 0

/-- KVM_SET_USER_MEMORY_REGION, the write ioctl number 0x46 carrying a
struct kvm_userspace_memory_region. -/
def KVM_SET_USER_MEMORY_REGION : Nat :=
  ioc iocWrite kvmMagic 0x46 sizeofUserspaceMemoryRegion

/-- KVM_CREATE_VCPU, the no-payload ioctl number 0x41. -/
def KVM_CREATE_VCPU : Nat := ioc iocNone kvmMagic 0x41 0

/-- KVM_GET_VCPU_MMAP_SIZE, the no-payload ioctl number 0x04. -/
def KVM_GET_VCPU_MMAP_SIZE : Nat := ioc iocNone kvmMagic 0x04 0

/-- KVM_GET_SREGS, the read ioctl number 0x83 carrying a struct kvm_sregs. -/
def KVM_GET_SREGS : Nat := ioc iocRead kvmMagic 0x83 sizeofSregs

/-- KVM_SET_SREGS, the write ioctl number 0x84 carrying a struct kvm_sregs. -/
def KVM_SET_SREGS : Nat := ioc iocWrite kvmMagic 0x84 sizeofSregs

/-- One printf call of the program body: the NAME literal of its format
string together with the constant passed as the argument. -/
structure PrintfCall where
  name : String
  value : Nat
deriving DecidableEq, Repr

/-- The seven printf calls of main, in source order (src lines 6 to 12). -/
def mainCalls : List PrintfCall :=
  [ ⟨"KVM_GET_API_VERSION", KVM_GET_API_VERSION⟩,
    ⟨"KVM_CREATE_VM", KVM_CREATE_VM⟩,
    ⟨"KVM_SET_USER_MEMORY_REGION", KVM_SET_USER_MEMORY_REGION⟩,
    ⟨"KVM_CREATE_VCPU", KVM_CREATE_VCPU⟩,
    ⟨"KVM_GET_VCPU_MMAP_SIZE", KVM_GET_VCPU_MMAP_SIZE⟩,
    ⟨"KVM_GET_SREGS", KVM_GET_SREGS⟩,
    ⟨"KVM_SET_SREGS", KVM_SET_SREGS⟩ ]

/-- The text a call sends to stdout: the format string with the lu conversion
replaced by the decimal digits of the argument. -/
def fmtLine (name : String) (v : Nat) : String :=
  name ++ " = " ++ Nat.repr v ++ "\n"

/-- The seven lines main produces, in order. -/
def mainLines : List String := mainCalls.map (fun c => fmtLine c.name c.value)

/-- The whole byte string main sends to stdout. -/
def mainOutput : String := String.join mainLines

/-- One statement of the program body. The source's main contains only
expression statements whose expression is a printf call with one constant
argument, so the statement language has exactly that shape. -/
inductive Stmt where
  | printfCall (name : String) (value : Nat) : Stmt
deriving DecidableEq, Repr

/-- The body of main as a statement list, one statement per source line
(src lines 6 to 12). -/
def mainBody : List Stmt :=
  mainCalls.map (fun c => Stmt.printfCall c.name c.value)

/-- The observable process state the program can touch: the bytes written to
stdout so far, the lines the program attempted to write to stdout, the bytes
written to stderr, the file system, and the value of the last printf call
(which the source discards). -/
structure ProcState where
  stdoutWritten : List String
  stdoutAttempted : List String
  stderrWritten : List String
  files : List (String × String)
  lastResult : Int
deriving DecidableEq, Repr

/-- Effect of one printf call on the state. The write succeeds or fails at
the platform level, indicated by ok; on success printf returns the number of
bytes written, on failure a negative value. The program never reads this
return value, but the semantics records it faithfully. -/
def doPrintf (ok : Bool) (name : String) (v : Nat) (s : ProcState) : ProcState :=
  let line := fmtLine name v
  { s with
    stdoutAttempted := s.stdoutAttempted ++ [line]
    stdoutWritten := if ok then s.stdoutWritten ++ [line] else s.stdoutWritten
    lastResult := if ok then (line.length : Int) else -1 }

/-- Run a statement list. The oracle decides, per attempted write, whether
the platform lets the stdout write succeed; the program's control flow never
consults it. -/
def execStmts (oracle : Nat → Bool) : List Stmt → ProcState → ProcState
  | [], s => s
  | Stmt.printfCall name v :: rest, s =>
      execStmts oracle rest (doPrintf (oracle s.stdoutAttempted.length) name v s)

/-- Run a statement list under a step budget: consuming one unit of fuel per
statement, returning none if the budget runs out before the list ends. -/
def execFuel (oracle : Nat → Bool) : Nat → List Stmt → ProcState → Option ProcState
  | _, [], s => some s
  | 0, _ :: _, _ => none
  | fuel + 1, Stmt.printfCall name v :: rest, s =>
      execFuel oracle fuel rest (doPrintf (oracle s.stdoutAttempted.length) name v s)

/-- Run main's body from a given state with every stdout write succeeding
(the normal run). -/
def runMain (s : ProcState) : ProcState := execStmts (fun _ => true) mainBody s

/-- Run main's body from a given state under an arbitrary write oracle. -/
def runMainWith (oracle : Nat → Bool) (s : ProcState) : ProcState :=
  execStmts oracle mainBody s

/-- The state of a freshly started process with a given file system. -/
def initState (files : List (String × String)) : ProcState :=
  { stdoutWritten := [], stdoutAttempted := [], stderrWritten := []
    files := files, lastResult := 0 }

/-- What the operating system hands a process at startup: command line
arguments, environment variables and a file system. -/
structure Invocation where
  args : List String
  envVars : List (String × String)
  files : List (String × String)

/-- The process entry point. main is declared with no parameters
(src line 5) and its body names no argv, no environment accessor and no file
API, so the invocation can only reach the run through the initial file
system; the statement list is the fixed mainBody. -/
def runProcess (inv : Invocation) : ProcState :=
  runMain (initState inv.files)

/-- The return type a C function declaration carries. -/
inductive CRetType where
  | voidTy : CRetType
  | intTy : CRetType
deriving DecidableEq, Repr

/-- The declared return type of main, which src line 5 writes as void. -/
def mainReturnType : CRetType := CRetType.voidTy

/-- The termination status observed in practice when a void-typed main
returns on x86-64 Linux: C11 5.1.2.2.3 leaves it unspecified, and the common
toolchain hands the host the low byte of the return register, which after
main's last statement holds the return value of the final printf call. -/
def deFactoExitStatus (s : ProcState) : Nat := s.lastResult.toNat % 256

/-- The two C integer types this program's printf calls involve. -/
inductive CType where
  | unsignedInt : CType
  | unsignedLong : CType
deriving DecidableEq, Repr

/-- Bit width of each type on the LP64 data model of x86-64 Linux, the
platform whose kvm header the source includes. -/
def CType.bitWidth : CType → Nat
  | CType.unsignedInt => 32
  | CType.unsignedLong => 64

/-- The argument type the lu printf conversion expects, per C11 7.21.6.1:
unsigned long. -/
def luExpectedType : CType := CType.unsignedLong

/-- The C type of an ioctl request constant expression in userspace, by the
usual arithmetic conversions over the operands of the _IOC macro: the
direction operand is an unsigned int literal (0U, 1U or 2U) and the type and
number operands are int literals, while the size operand is either the int
literal 0 (the _IO macro) or a sizeof expression (the _IOW and _IOR macros
go through _IOC_TYPECHECK, which in userspace is sizeof), whose type size_t
is unsigned long on LP64. With a sizeof size operand the whole expression
has type unsigned long; without one it has type unsigned int. -/
def iocConstCType (sizeofOperand : Bool) : CType :=
  if sizeofOperand then CType.unsignedLong else CType.unsignedInt

/-- The typing facts of one printf call: the constant's name, the conversion
specifier appearing in the format string, and the C type of the argument
expression the call passes. -/
structure FormatUse where
  name : String
  conversion : String
  argType : CType
deriving DecidableEq, Repr

/-- The seven printf calls of main as typing facts, in source order
(src lines 6 to 12): every format string uses the lu conversion, and each
argument's type follows from the macro the header defines the constant
with; the _IO constants carry no sizeof operand, the _IOW and _IOR
constants do. -/
def mainFormatUses : List FormatUse :=
  [ ⟨"KVM_GET_API_VERSION", "%lu", iocConstCType false⟩,
    ⟨"KVM_CREATE_VM", "%lu", iocConstCType false⟩,
    ⟨"KVM_SET_USER_MEMORY_REGION", "%lu", iocConstCType true⟩,
    ⟨"KVM_CREATE_VCPU", "%lu", iocConstCType false⟩,
    ⟨"KVM_GET_VCPU_MMAP_SIZE", "%lu", iocConstCType false⟩,
    ⟨"KVM_GET_SREGS", "%lu", iocConstCType true⟩,
    ⟨"KVM_SET_SREGS", "%lu", iocConstCType true⟩ ]

/-- Split a character list at the first occurrence of the three-character
separator of the output pattern, a space, an equals sign and a space,
returning the part before and the part after it. -/
def splitAtSep : List Char → Option (List Char × List Char)
  | [] => none
  | ' ' :: '=' :: ' ' :: rest => some ([], rest)
  | c :: rest =>
      match splitAtSep rest with
      | some (n, r) => some (c :: n, r)
      | none => none

/-- Parse a nonempty list of decimal digits back to the number it denotes. -/
def parseDec (cs : List Char) : Option Nat :=
  if cs ≠ [] && cs.all Char.isDigit then
    some (cs.foldl (fun acc c => acc * 10 + (c.toNat - 48)) 0)
  else none

/-- Line-shape check against the pattern NAME = nonNegativeInteger followed
by a newline: a separator, a nonempty name of capitals and underscores, a
nonempty run of decimal digits, and a final newline. -/
def isReportLine (s : String) : Bool :=
  match splitAtSep s.data with
  | some (name, rest) =>
      name ≠ [] &&
      name.all (fun c => c.isUpper || c == '_') &&
      rest.getLast? == some '\n' &&
      rest.dropLast ≠ [] &&
      rest.dropLast.all Char.isDigit
  | none => false

/-- The NAME token of a report line. -/
def lineName (s : String) : String :=
  match splitAtSep s.data with
  | some (name, _) => String.mk name
  | none => ""

/-- The numeric value a report line carries, read back from its digits. -/
def lineValue (s : String) : Option Nat :=
  match splitAtSep s.data with
  | some (_, rest) => parseDec rest.dropLast
  | none => none

/-- Running main's body under any write oracle appends exactly the seven
report lines to the attempted stdout writes and leaves stderr and the file
system untouched: no statement of the body consults the oracle's answers. -/
lemma runMainWith_effects (f : Nat → Bool) (s : ProcState) :
    (runMainWith f s).stdoutAttempted = s.stdoutAttempted ++ mainLines ∧
    (runMainWith f s).stderrWritten = s.stderrWritten ∧
    (runMainWith f s).files = s.files := by
  simp [runMainWith, mainBody, mainCalls, execStmts, doPrintf, mainLines]

/-- A normal run of main's body from any starting state: the seven report
lines are appended to stdout, stderr and the files are untouched, and the
discarded result of the last printf call is the byte count of the final
line. -/
lemma runMain_eq (s : ProcState) :
    runMain s =
      { stdoutWritten := s.stdoutWritten ++ mainLines
        stdoutAttempted := s.stdoutAttempted ++ mainLines
        stderrWritten := s.stderrWritten
        files := s.files
        lastResult := ((fmtLine "KVM_SET_SREGS" KVM_SET_SREGS).length : Int) } := by
  simp [runMain, mainBody, mainCalls, execStmts, doPrintf, mainLines]

/-- C1: a run writes to stdout exactly seven lines, each of the form
NAME = nonNegativeInteger, the NAME tokens being exactly the seven KVM
request names in source order, with no blank lines, no extra lines, and a
trailing newline ending the output. -/
theorem c1_output_is_seven_report_lines :
    (runMain (initState [])).stdoutWritten = mainLines ∧
    mainLines.length = 7 ∧
    mainLines.all isReportLine = true ∧
    mainLines.map lineName =
      [ "KVM_GET_API_VERSION", "KVM_CREATE_VM", "KVM_SET_USER_MEMORY_REGION",
        "KVM_CREATE_VCPU", "KVM_GET_VCPU_MMAP_SIZE", "KVM_GET_SREGS",
        "KVM_SET_SREGS" ] ∧
    (mainLines.all fun l => l != "\n" && l != "") = true ∧
    mainOutput = String.join mainLines ∧
    mainOutput.data.getLast? = some '\n' := by
  refine ⟨by decide, by decide, by decide, by decide, by decide, rfl, by decide⟩

/-- C2: each printed value is the decimal rendering of the corresponding
KVM request constant: parsing the digits of line i of a normal run yields
exactly the constant passed by call i, so the values are echoed unaltered
by the formatting step. -/
theorem c2_values_echoed_exactly :
    (runMain (initState [])).stdoutWritten.map lineValue =
      mainCalls.map (fun c => some c.value) ∧
    mainCalls.map (fun c => c.value) =
      [ KVM_GET_API_VERSION, KVM_CREATE_VM, KVM_SET_USER_MEMORY_REGION,
        KVM_CREATE_VCPU, KVM_GET_VCPU_MMAP_SIZE, KVM_GET_SREGS,
        KVM_SET_SREGS ] := by
  exact ⟨by decide, by decide⟩

set_option maxRecDepth 10000 in
/-- C3: the program is deterministic: the byte sequence a run appends to
stdout is the same for any two runs, and it is one fixed byte string
determined by the header constants. -/
theorem c3_deterministic_output :
    (∀ s₁ s₂ : ProcState,
      (runMain s₁).stdoutWritten.drop s₁.stdoutWritten.length =
        (runMain s₂).stdoutWritten.drop s₂.stdoutWritten.length) ∧
    mainOutput =
      "KVM_GET_API_VERSION = 44544\nKVM_CREATE_VM = 44545\nKVM_SET_USER_MEMORY_REGION = 1075883590\nKVM_CREATE_VCPU = 44609\nKVM_GET_VCPU_MMAP_SIZE = 44548\nKVM_GET_SREGS = 2167975555\nKVM_SET_SREGS = 1094233732\n" := by
  constructor
  · intro s₁ s₂
    rw [runMain_eq, runMain_eq]
    simp [List.drop_left]
  · decide

/-- C4: the claim that the exit code is 0 on normal completion fails on the
code: src line 5 declares main with return type void, so C leaves the
termination status unspecified, and the status the common x86-64 toolchain
actually produces is the return value of the last printf call, 27, not 0. -/
theorem c4_void_main_nonzero_exit_status :
    mainReturnType = CRetType.voidTy ∧
    deFactoExitStatus (runMain (initState [])) = 27 ∧
    deFactoExitStatus (runMain (initState [])) ≠ 0 := by
  exact ⟨rfl, by decide, by decide⟩

/-- C5: the claim that the lu conversion and its argument agree in type in
all seven calls fails on the code: the four _IO-derived constants have type
unsigned int (32 bits on LP64) and disagree with the lu conversion's
expected unsigned long (64 bits) in both type and width, while the three
constants built with a sizeof operand (the _IOW and _IOR macros) are
unsigned long and agree; so exactly four of the seven calls are
mistyped. -/
theorem c5_io_calls_break_lu_agreement :
    mainFormatUses.length = 7 ∧
    mainFormatUses.map (fun u => u.name) = mainCalls.map (fun c => c.name) ∧
    (mainFormatUses.all fun u => u.conversion == "%lu") = true ∧
    mainFormatUses.map (fun u => u.argType) =
      [ CType.unsignedInt, CType.unsignedInt, CType.unsignedLong,
        CType.unsignedInt, CType.unsignedInt, CType.unsignedLong,
        CType.unsignedLong ] ∧
    (mainFormatUses.filter fun u => u.argType != luExpectedType).map
        (fun u => u.name) =
      [ "KVM_GET_API_VERSION", "KVM_CREATE_VM", "KVM_CREATE_VCPU",
        "KVM_GET_VCPU_MMAP_SIZE" ] ∧
    (mainFormatUses.filter fun u => u.argType == luExpectedType).map
        (fun u => u.name) =
      [ "KVM_SET_USER_MEMORY_REGION", "KVM_GET_SREGS", "KVM_SET_SREGS" ] ∧
    ((mainFormatUses.filter fun u => u.argType != luExpectedType).all
      fun u => u.argType.bitWidth != luExpectedType.bitWidth) = true := by
  refine ⟨by decide, by decide, by decide, by decide, by decide, by decide,
    by decide⟩

/-- C6: the output does not depend on the invocation: any two runs, whatever
their command line arguments, environment variables and file systems, write
the same bytes to stdout and end with the same termination status, because
main reads none of them. -/
theorem c6_invocation_independence :
    ∀ a b : Invocation,
      (runProcess a).stdoutWritten = (runProcess b).stdoutWritten ∧
      deFactoExitStatus (runProcess a) = deFactoExitStatus (runProcess b) := by
  intro a b
  rw [runProcess, runProcess, runMain_eq, runMain_eq]
  exact ⟨rfl, rfl⟩

/-- C7: the claim that every observable component other than stdout is left
unchanged fails on the code: from any starting state the run does leave
stderr and the file system untouched and appends exactly the seven report
lines to stdout, but the exit-affecting component of the state, the value a
void-typed main hands the host through the return register, is changed by
the run (on a fresh start it goes from 0 to the last printf's return value,
so the termination status the host observes changes with the run). -/
theorem c7_exit_affecting_state_changes :
    (∀ s : ProcState,
      (runMain s).stderrWritten = s.stderrWritten ∧
      (runMain s).files = s.files ∧
      (runMain s).stdoutWritten = s.stdoutWritten ++ mainLines) ∧
    (runMain (initState [])).lastResult ≠ (initState []).lastResult ∧
    deFactoExitStatus (runMain (initState [])) ≠
      deFactoExitStatus (initState []) := by
  refine ⟨?_, by decide, by decide⟩
  intro s
  rw [runMain_eq]
  exact ⟨rfl, rfl, rfl⟩

/-- C8: the program never inspects a write result: under any two patterns of
stdout write failures it attempts exactly the same seven writes, once each,
with no retry, and writes nothing to stderr and touches no file, so failures
are neither handled nor reported distinctly. -/
theorem c8_write_failures_ignored :
    ∀ (f g : Nat → Bool) (s : ProcState),
      (runMainWith f s).stdoutAttempted = (runMainWith g s).stdoutAttempted ∧
      (runMainWith f s).stdoutAttempted = s.stdoutAttempted ++ mainLines ∧
      (runMainWith f s).stderrWritten = s.stderrWritten ∧
      (runMainWith f s).files = s.files := by
  intro f g s
  obtain ⟨ha, he, hf⟩ := runMainWith_effects f s
  obtain ⟨hb, _, _⟩ := runMainWith_effects g s
  exact ⟨ha.trans hb.symm, ha, he, hf⟩

/-- C9: the program always terminates: its body is the fixed loop-free list
of seven printf statements, and from any state, under any write oracle, a
step budget of exactly its length suffices to run it to completion. -/
theorem c9_terminates_in_seven_steps :
    mainBody.length = 7 ∧
    ∀ (oracle : Nat → Bool) (s : ProcState),
      execFuel oracle mainBody.length mainBody s =
        some (execStmts oracle mainBody s) := by
  refine ⟨by decide, ?_⟩
  intro oracle s
  simp [execFuel, execStmts, mainBody, mainCalls]

/-- C10: the seven constants the program prints are pairwise distinct: the
list of argument values of the seven calls has no duplicate. -/
theorem c10_printed_values_distinct :
    (mainCalls.map fun c => c.value).Nodup ∧
    (mainCalls.map fun c => c.value).length = 7 := by
  exact ⟨by decide, by decide⟩

end Ioctls
